import Mathlib

/-
Verification of the artifact synchronization core of yodalib
(src/yodalib/api/decompiler_interface.py) against its specification.

The decompiler interface is embedded shallowly: the canonical artifact
data model is an inductive type, the backend (the set of overridable
per-kind methods a concrete decompiler supplies) is a structure of
functions, and each public operation of DecompilerInterface becomes a
Lean function over those, instrumented with an event trace where the
specification speaks about which internal calls happen (lock
acquisitions, dispatches, backend decompilation, logging).

Collaborators that live in this repository but outside the provided
sources (the ArtifactLifter, the CTypeParser type-parsing service, the
decompiler name constants) are modelled from the specification; each
such definition carries a doc comment starting with
"Modelled from the spec:".
-/

namespace Yodalib

/-- Canonical FunctionHeader: name, return type and ordered parameter
list, each parameter a name plus type descriptor
(yodalib.data.FunctionHeader, used by decompiler_interface). -/
structure FunctionHeader where
  name : String
  ret_type : String
  args : List (String × String)
deriving DecidableEq, Repr

/-- Canonical StackVariable: keyed by function address and frame offset,
with a name, a type descriptor and a size (yodalib.data.StackVariable). -/
structure StackVariable where
  addr : Int
  offset : Int
  name : String
  type : String
  size : Int
deriving DecidableEq, Repr

/-- Canonical Function: start address and size, an optional header and a
mapping from stack offset to StackVariable (yodalib.data.Function). -/
structure Function where
  addr : Int
  size : Int
  header : Option FunctionHeader
  stack_vars : List (Int × StackVariable)
deriving DecidableEq, Repr

/-- Canonical GlobalVariable: address, name, size and type descriptor
(yodalib.data.GlobalVariable). -/
structure GlobalVariable where
  addr : Int
  name : String
  size : Int
  type : String
deriving DecidableEq, Repr

/-- Canonical Struct: unique name, size, and offset-keyed named and typed
members (yodalib.data.Struct). -/
structure Struct where
  name : String
  size : Int
  members : List (Int × String × String)
deriving DecidableEq, Repr

/-- Canonical Enum: unique name and a mapping from member name to integer
value (yodalib.data.Enum). -/
structure Enum where
  name : String
  members : List (String × Int)
deriving DecidableEq, Repr

/-- Canonical Comment: address, text, and the flag distinguishing
decompiler-native from user comments (yodalib.data.Comment). -/
structure Comment where
  addr : Int
  comment : String
  decompiled : Bool
deriving DecidableEq, Repr

/-- Canonical Patch: address and raw byte sequence (yodalib.data.Patch). -/
structure Patch where
  addr : Int
  bytes : List Nat
deriving DecidableEq, Repr

/-- The Artifact supertype: the union of the concrete kinds. The
constructor abstractArtifact stands for a value whose concrete Python
type is the abstract Artifact base class or any other type absent from
the dispatch table of set_artifact. -/
inductive Artifact
  | func : Function → Artifact
  | funcHeader : FunctionHeader → Artifact
  | stackVar : StackVariable → Artifact
  | comment : Comment → Artifact
  | globalVar : GlobalVariable → Artifact
  | struct : Struct → Artifact
  | enum : Enum → Artifact
  | patch : Patch → Artifact
  | abstractArtifact : Artifact
deriving DecidableEq, Repr

/-- The type tag of an artifact, mirroring type(artifact) as used by the
dispatch table in set_artifact. -/
inductive ArtifactKind
  | func
  | funcHeader
  | stackVar
  | comment
  | globalVar
  | struct
  | enum
  | patch
  | abstractArtifact
deriving DecidableEq, Repr

def Artifact.kind : Artifact → ArtifactKind
  | .func _ => .func
  | .funcHeader _ => .funcHeader
  | .stackVar _ => .stackVar
  | .comment _ => .comment
  | .globalVar _ => .globalVar
  | .struct _ => .struct
  | .enum _ => .enum
  | .patch _ => .patch
  | .abstractArtifact => .abstractArtifact

/-- Modelled from the spec: yodalib.api.artifact_lifter.ArtifactLifter is
not among the provided sources. Spec section 4.1: the lifter is pure and
stateless apart from configuration fixed at construction, for example an
address-space base offset; lift converts a backend-native artifact to
canonical form, for example subtracting a base offset from addresses, and
lower is the inverse transform. -/
structure ArtifactLifter where
  base_addr : Int
deriving DecidableEq, Repr

/-- Modelled from the spec: lift subtracts the configured base offset
from an address. -/
def ArtifactLifter.lift_addr (l : ArtifactLifter) (a : Int) : Int :=
  a - l.base_addr

/-- Modelled from the spec: lower_addr is the standalone address
translation, the inverse of lift_addr. -/
def ArtifactLifter.lower_addr (l : ArtifactLifter) (a : Int) : Int :=
  a + l.base_addr

/-- Apply an address translation to every address field of an artifact;
kinds without an address field pass through unchanged, as the spec
requires for unknown or unparsable content. -/
def Artifact.mapAddr (g : Int → Int) : Artifact → Artifact
  | .func f => .func { f with addr := g f.addr }
  | .funcHeader h => .funcHeader h
  | .stackVar v => .stackVar { v with addr := g v.addr }
  | .comment c => .comment { c with addr := g c.addr }
  | .globalVar v => .globalVar { v with addr := g v.addr }
  | .struct s => .struct s
  | .enum e => .enum e
  | .patch p => .patch { p with addr := g p.addr }
  | .abstractArtifact => .abstractArtifact

/-- Modelled from the spec: ArtifactLifter.lift translates a
backend-native artifact into canonical form by lifting its addresses. -/
def ArtifactLifter.lift (l : ArtifactLifter) (a : Artifact) : Artifact :=
  a.mapAddr l.lift_addr

/-- Modelled from the spec: ArtifactLifter.lower is the inverse
transform, applied before handing an artifact to a backend. -/
def ArtifactLifter.lower (l : ArtifactLifter) (a : Artifact) : Artifact :=
  a.mapAddr l.lower_addr

/-- DecompilerInterface.lift_artifact (decompiler_interface.py line 395):
delegates to the interface lifter. -/
def lift_artifact (l : ArtifactLifter) (a : Artifact) : Artifact :=
  l.lift a

/-- DecompilerInterface.lower_artifact (decompiler_interface.py line
398): delegates to the interface lifter. -/
def lower_artifact (l : ArtifactLifter) (a : Artifact) : Artifact :=
  l.lower a

lemma kind_mapAddr (g : Int → Int) (a : Artifact) :
    (a.mapAddr g).kind = a.kind := by
  cases a <;> rfl

lemma kind_lower_artifact (l : ArtifactLifter) (a : Artifact) :
    (lower_artifact l a).kind = a.kind := by
  simpa [lower_artifact, ArtifactLifter.lower] using
    kind_mapAddr l.lower_addr a

/-- C8: for every representable artifact a, lower (lift a) = a and
lift (lower a) = a: the lift and lower transforms of the Address/Type
Lifter, reached through lift_artifact and lower_artifact, are mutual
inverses. -/
theorem C8_lift_lower_round_trip (l : ArtifactLifter) (a : Artifact) :
    lower_artifact l (lift_artifact l a) = a ∧
      lift_artifact l (lower_artifact l a) = a := by
  constructor <;>
    cases a <;>
      simp [lower_artifact, lift_artifact, ArtifactLifter.lower,
        ArtifactLifter.lift, Artifact.mapAddr, ArtifactLifter.lift_addr,
        ArtifactLifter.lower_addr]

/-- The overridable backend surface of DecompilerInterface: the per-kind
existence enumerators, setters and the decompilation call that a concrete
decompiler may override. Each field corresponds to one underscore-prefixed
method of DecompilerInterface (decompiler_interface.py lines 111-290). A
setter raising or a decompilation call raising is modelled with Except. -/
structure Backend where
  functions : List Function
  set_function_header : FunctionHeader → Bool
  set_stack_variable : StackVariable → Bool
  set_comment : Comment → Bool
  set_global_variable : GlobalVariable → Bool
  set_struct : Struct → Bool
  set_enum : Enum → Bool
  set_patch : Patch → Bool
  structs : List (String × Struct)
  global_vars : List (Int × GlobalVariable)
  enums : List (String × Enum)
  decompiler_available : Bool
  decompile_impl : Function → Except String (Option String)

/-- The backend that overrides none of the optional methods: every field
keeps the default body from DecompilerInterface itself (empty enumerator
results, setters returning False, decompiler_available True, and a
decompilation call that raises NotImplementedError). -/
def defaultBackend : Backend where
  functions := []
  set_function_header := fun _ => false
  set_stack_variable := fun _ => false
  set_comment := fun _ => false
  set_global_variable := fun _ => false
  set_struct := fun _ => false
  set_enum := fun _ => false
  set_patch := fun _ => false
  structs := []
  global_vars := []
  enums := []
  decompiler_available := true
  decompile_impl := fun _ => Except.error "NotImplementedError"

/-- DecompilerInterface._set_function (decompiler_interface.py lines
165-175): sets the header if present, then every stack variable, oring
the change flags together. -/
def set_function (B : Backend) (f : Function) : Bool :=
  let update :=
    match f.header with
    | some h => B.set_function_header h
    | none => false
  f.stack_vars.foldl (fun u p => u || B.set_stack_variable p.2) update

/-- One entry of the finite dispatch table of set_artifact
(decompiler_interface.py lines 345-355): the backend setter reached for
each concrete kind. The abstractArtifact row mirrors the None entry for
the Artifact base class and the None default of set_map.get. -/
def dispatchSetter (B : Backend) : Artifact → Bool
  | .func f => set_function B f
  | .funcHeader h => B.set_function_header h
  | .stackVar v => B.set_stack_variable v
  | .comment c => B.set_comment c
  | .globalVar v => B.set_global_variable v
  | .struct s => B.set_struct s
  | .enum e => B.set_enum e
  | .patch p => B.set_patch p
  | .abstractArtifact => false

/-- Events observable during a set_artifact call: one dispatch through
the set_map table, recording the kind keyed on and the artifact handed to
the setter, or the critical log emitted when no setter is registered. -/
inductive SetEvent
  | dispatch (k : ArtifactKind) (a : Artifact)
  | criticalLog
deriving DecidableEq, Repr

/-- DecompilerInterface.set_artifact (decompiler_interface.py lines
331-365): if lower is true the artifact is first lowered through the
lifter, then the setter is looked up by the concrete type of the
resulting artifact; a missing entry logs a critical error and returns
False, otherwise the setter is called once on the artifact. -/
def set_artifact (l : ArtifactLifter) (B : Backend) (a : Artifact)
    (lower : Bool) : Bool × List SetEvent :=
  let a2 := if lower then lower_artifact l a else a
  if a2.kind = ArtifactKind.abstractArtifact then
    (false, [SetEvent.criticalLog])
  else
    (dispatchSetter B a2, [SetEvent.dispatch a2.kind a2])

/-- Key type of the merged global artifact mapping: structs and enums are
keyed by name, global variables by address. -/
inductive GKey
  | name (s : String)
  | addr (a : Int)
deriving DecidableEq, Repr

/-- Value type of the merged global artifact mapping. -/
inductive GArtifact
  | struct (s : Struct)
  | globalVar (g : GlobalVariable)
  | enum (e : Enum)
deriving DecidableEq, Repr

/-- Python dict update for one key: a later write under an existing key
replaces the stored value, a fresh key is appended. -/
def updateKey (m : List (GKey × GArtifact)) (k : GKey) (v : GArtifact) :
    List (GKey × GArtifact) :=
  if m.any (fun p => p.1 = k) then
    m.map (fun p => if p.1 = k then (k, v) else p)
  else
    m ++ [(k, v)]

/-- DecompilerInterface.global_artifacts (decompiler_interface.py lines
297-308): merges the existence-only views of structs, global variables
and enums into one mapping, in that update order, so later sources win on
key collision. -/
def global_artifacts (B : Backend) : List (GKey × GArtifact) :=
  let m1 := B.structs.foldl
    (fun m p => updateKey m (GKey.name p.1) (GArtifact.struct p.2)) []
  let m2 := B.global_vars.foldl
    (fun m p => updateKey m (GKey.addr p.1) (GArtifact.globalVar p.2)) m1
  B.enums.foldl
    (fun m p => updateKey m (GKey.name p.1) (GArtifact.enum p.2)) m2

lemma foldl_or_false (g : Int × StackVariable → Bool)
    (xs : List (Int × StackVariable)) (h : ∀ p, g p = false) :
    xs.foldl (fun u p => u || g p) false = false := by
  induction xs with
  | nil => rfl
  | cons x xs ih => simp [List.foldl_cons, h x, ih]

lemma set_function_defaultBackend (f : Function) :
    set_function defaultBackend f = false := by
  unfold set_function
  cases f.header <;>
    simp [defaultBackend, foldl_or_false (fun _ => false) f.stack_vars]

lemma dispatchSetter_defaultBackend (a : Artifact) :
    dispatchSetter defaultBackend a = false := by
  cases a <;>
    first
      | rfl
      | simpa [dispatchSetter] using set_function_defaultBackend _

/-- C2: with lower = true, set_artifact first lowers the artifact through
the lifter, then dispatches on its concrete kind; every concrete kind
reaches exactly the one corresponding backend setter, whose result is
returned, while an abstract or unrecognized kind logs a critical error
and returns false. -/
theorem C2_set_artifact_dispatch (l : ArtifactLifter) (B : Backend)
    (a : Artifact) :
    (a.kind ≠ ArtifactKind.abstractArtifact →
      set_artifact l B a true =
        (dispatchSetter B (lower_artifact l a),
          [SetEvent.dispatch a.kind (lower_artifact l a)])) ∧
    (a.kind = ArtifactKind.abstractArtifact →
      set_artifact l B a true = (false, [SetEvent.criticalLog])) := by
  constructor
  · intro h
    simp [set_artifact, kind_lower_artifact, h]
  · intro h
    simp [set_artifact, kind_lower_artifact, h]

/-- C2 witness: the dispatch theorem evaluated on a concrete Comment
artifact and on the abstract artifact, under the identity lifter. -/
theorem C2_set_artifact_dispatch_witness :
    set_artifact ⟨0⟩ defaultBackend
        (Artifact.comment ⟨0x10, "hi", false⟩) true =
      (false, [SetEvent.dispatch ArtifactKind.comment
        (Artifact.comment ⟨0x10, "hi", false⟩)]) ∧
    set_artifact ⟨0⟩ defaultBackend Artifact.abstractArtifact true =
      (false, [SetEvent.criticalLog]) := by
  constructor
  · have h := (C2_set_artifact_dispatch ⟨0⟩ defaultBackend
      (Artifact.comment ⟨0x10, "hi", false⟩)).1 (by decide)
    simpa [lower_artifact, ArtifactLifter.lower, Artifact.mapAddr,
      ArtifactLifter.lower_addr, dispatchSetter, defaultBackend,
      Artifact.kind] using h
  · exact (C2_set_artifact_dispatch ⟨0⟩ defaultBackend
      Artifact.abstractArtifact).2 rfl

/-- C9: a backend overriding none of the optional methods yields an empty
global_artifacts mapping, every per-kind setter returns false, and
set_artifact returns false for every artifact; all of these operations
are total and raise nothing. -/
theorem C9_default_backend_degrades_gracefully :
    global_artifacts defaultBackend = [] ∧
    (∀ h, defaultBackend.set_function_header h = false) ∧
    (∀ v, defaultBackend.set_stack_variable v = false) ∧
    (∀ c, defaultBackend.set_comment c = false) ∧
    (∀ g, defaultBackend.set_global_variable g = false) ∧
    (∀ s, defaultBackend.set_struct s = false) ∧
    (∀ e, defaultBackend.set_enum e = false) ∧
    (∀ p, defaultBackend.set_patch p = false) ∧
    (∀ f, set_function defaultBackend f = false) ∧
    (∀ l a lower, (set_artifact l defaultBackend a lower).1 = false) := by
  refine ⟨rfl, fun _ => rfl, fun _ => rfl, fun _ => rfl, fun _ => rfl,
    fun _ => rfl, fun _ => rfl, fun _ => rfl,
    set_function_defaultBackend, ?_⟩
  intro l a lower
  unfold set_artifact
  by_cases h :
      (if lower then lower_artifact l a else a).kind =
        ArtifactKind.abstractArtifact <;>
    simp [h, dispatchSetter_defaultBackend]

/-- Events observable during a decompile call: the standalone address
translation through the lifter, one pass over the function table per
search address, the backend decompilation request, and the warning logged
when that request raises. -/
inductive DecompEvent
  | loweredAddr (a : Int)
  | searched (a : Int)
  | backendDecompile (f : Function)
  | warnLog
deriving DecidableEq, Repr

/-- The inner loop of decompile (decompiler_interface.py lines 134-137):
the first function of the backend table whose half-open range
[addr, addr + size) contains the search address. -/
def findFunc (funcs : List Function) (search_addr : Int) :
    Option Function :=
  funcs.find?
    (fun f =>
      decide (f.addr ≤ search_addr) && decide (search_addr < f.addr + f.size))

/-- DecompilerInterface.decompile (decompiler_interface.py lines
127-152). When the decompiler is unavailable it returns None at once,
before the search-address tuple - and with it the lower_addr call - is
ever built. Otherwise the function table (the backend view, in
backend-native addresses) is searched with the address as given and then
with its lowered form; if neither pass finds a containing function the
result is None, and otherwise the backend decompilation is requested for
the found function, any exception being caught, logged as a warning and
turned into None. -/
def decompile (l : ArtifactLifter) (B : Backend) (addr : Int) :
    Option String × List DecompEvent :=
  if B.decompiler_available = false then
    (none, [])
  else
    let low := l.lower_addr addr
    let ev0 := [DecompEvent.loweredAddr addr]
    let found :=
      match findFunc B.functions addr with
      | some f => (some f, [DecompEvent.searched addr])
      | none =>
        match findFunc B.functions low with
        | some f =>
          (some f, [DecompEvent.searched addr, DecompEvent.searched low])
        | none =>
          (none, [DecompEvent.searched addr, DecompEvent.searched low])
    match found with
    | (none, evs) => (none, ev0 ++ evs)
    | (some f, evs) =>
      match B.decompile_impl f with
      | Except.ok d =>
        (d, ev0 ++ evs ++ [DecompEvent.backendDecompile f])
      | Except.error _ =>
        (none,
          ev0 ++ evs ++ [DecompEvent.backendDecompile f, DecompEvent.warnLog])

/-- Lifter used in the concrete decompile examples: canonical addresses
are backend-native addresses minus 0x400000. -/
def exampleLifter : ArtifactLifter := ⟨0x400000⟩

/-- The function of the concrete decompile examples: canonical address
0x1000 and size 0x100, stored in the backend table at its backend-native
address 0x401000. -/
def exampleFunc : Function := ⟨0x401000, 0x100, none, []⟩

/-- Backend used in the concrete decompile examples: one function in the
table and a decompilation call that succeeds with fixed text. -/
def exampleBackend : Backend :=
  { defaultBackend with
      functions := [exampleFunc],
      decompile_impl := fun _ => Except.ok (some "decompiled text") }

/-- C10: when decompiler_available is false, decompile returns None
immediately with an empty event trace: the function table is never
searched, lower_addr is never called and the backend decompilation is
never requested. -/
theorem C10_decompile_unavailable (l : ArtifactLifter) (B : Backend)
    (addr : Int) (h : B.decompiler_available = false) :
    decompile l B addr = (none, []) := by
  simp [decompile, h]

/-- C10 witness: the early return evaluated on a backend with the
decompiler switched off. -/
theorem C10_decompile_unavailable_witness :
    decompile exampleLifter
        { exampleBackend with decompiler_available := false } 0x1050 =
      (none, []) :=
  C10_decompile_unavailable exampleLifter
    { exampleBackend with decompiler_available := false } 0x1050 rfl

/-- C3: decompile searches for the containing function with the address
as given first and with its lowered translation second, returning None
when neither form is contained in any function; in the concrete example,
a function of canonical address 0x1000 and size 0x100 is found both from
the canonical query 0x1050 and from its backend-native equivalent
0x401050, the backend decompilation succeeding in both cases. -/
theorem C3_decompile_address_tolerance :
    (∀ (l : ArtifactLifter) (B : Backend) (addr : Int),
      findFunc B.functions addr = none →
      findFunc B.functions (l.lower_addr addr) = none →
      (decompile l B addr).1 = none) ∧
    (∀ (l : ArtifactLifter) (B : Backend) (addr : Int) (f : Function),
      B.decompiler_available = true →
      findFunc B.functions addr = some f →
      DecompEvent.backendDecompile f ∈ (decompile l B addr).2) ∧
    (∀ (l : ArtifactLifter) (B : Backend) (addr : Int) (f : Function),
      B.decompiler_available = true →
      findFunc B.functions addr = none →
      findFunc B.functions (l.lower_addr addr) = some f →
      DecompEvent.backendDecompile f ∈ (decompile l B addr).2) ∧
    (decompile exampleLifter exampleBackend 0x1050).1 =
      some "decompiled text" ∧
    (decompile exampleLifter exampleBackend 0x401050).1 =
      some "decompiled text" := by
  refine ⟨?_, ?_, ?_, ?_, ?_⟩
  · intro l B addr h1 h2
    by_cases hav : B.decompiler_available = false
    · simp [decompile, hav]
    · simp [decompile, hav, h1, h2]
  · intro l B addr f hav h1
    rcases hd : B.decompile_impl f with d | d <;>
      simp [decompile, hav, h1, hd]
  · intro l B addr f hav h1 h2
    rcases hd : B.decompile_impl f with d | d <;>
      simp [decompile, hav, h1, h2, hd]
  · decide
  · decide

/-- C3 witness: the no-containing-function branch of the theorem applied
at a concrete address outside the single function of the example
backend. -/
theorem C3_decompile_address_tolerance_witness :
    (decompile exampleLifter exampleBackend 0x90000000).1 = none :=
  C3_decompile_address_tolerance.1 exampleLifter exampleBackend
    0x90000000 (by decide) (by decide)

/-- C7: when a containing function is found - through either address form
- and the backend decompilation call raises, decompile catches the
exception, logs a warning and returns None instead of propagating. -/
theorem C7_decompile_backend_failure_caught (l : ArtifactLifter)
    (B : Backend) (addr : Int) (f : Function) (msg : String)
    (hav : B.decompiler_available = true)
    (hfound :
      findFunc B.functions addr = some f ∨
        (findFunc B.functions addr = none ∧
          findFunc B.functions (l.lower_addr addr) = some f))
    (herr : B.decompile_impl f = Except.error msg) :
    (decompile l B addr).1 = none ∧
      DecompEvent.warnLog ∈ (decompile l B addr).2 := by
  rcases hfound with h1 | ⟨h1, h2⟩
  · constructor <;> simp [decompile, hav, h1, herr]
  · constructor <;> simp [decompile, hav, h1, h2, herr]

/-- C7 witness: the catch evaluated on the example backend with a
decompilation call that raises. -/
theorem C7_decompile_backend_failure_caught_witness :
    (decompile exampleLifter
        { exampleBackend with
            decompile_impl := fun _ => Except.error "backend broke" }
        0x401050).1 = none := by
  exact (C7_decompile_backend_failure_caught exampleLifter
    { exampleBackend with
        decompile_impl := fun _ => Except.error "backend broke" }
    0x401050 exampleFunc "backend broke" rfl (Or.inl (by decide)) rfl).1

/-- Lock-protocol events observable during an
artifact_set_event_handler call: the lowering of the artifact, the
acquisition and release of the real artifact_set_lock, and the
substitution of a DummyArtifactSetLock no-op guard. -/
inductive LockEvent
  | lowerArtifact (a : Artifact)
  | acquire
  | release
  | useDummy
deriving DecidableEq, Repr

/-- The exceptions relevant to the handler: ValueError, which the handler
catches, and any other exception, which propagates. -/
inductive PyError
  | valueError
  | otherError
deriving DecidableEq, Repr

/-- How a setter body finishes: return a change flag, raise ValueError,
or raise some other exception. -/
inductive SetterOutcome
  | ret (b : Bool)
  | raiseValueError
  | raiseOther
deriving DecidableEq, Repr

/-- A synchronous setter script: either finish with an outcome, or
trigger one nested artifact_set_event_handler call (with its own artifact
and its own setter script) and then continue. This models a backend
setter whose side effects synchronously fire further artifact-set
callbacks. -/
inductive SetterBody
  | done (o : SetterOutcome)
  | nest (a : Artifact) (inner : SetterBody) (rest : SetterBody)
deriving DecidableEq, Repr

mutual

/-- DecompilerInterface.artifact_set_event_handler
(decompiler_interface.py lines 410-437): the artifact is lowered first;
then the guard is the real artifact_set_lock when it is currently free
and a DummyArtifactSetLock otherwise; inside the with-block the setter
runs under try, with ValueError caught and turned into False; the real
lock, when taken, is released unconditionally by the with-statement. The
lockHeld argument is whether artifact_set_lock.locked() is true on entry;
inside the with-block the lock is held in either branch, so nested
handler calls fired by the setter body run with lockHeld = true. -/
def artifact_set_event_handler (l : ArtifactLifter) (lockHeld : Bool)
    (a : Artifact) (b : SetterBody) :
    Except PyError Bool × List LockEvent :=
  let r := runSetterBody l b
  let caught : Except PyError Bool :=
    match r.1 with
    | Except.ok v => Except.ok v
    | Except.error PyError.valueError => Except.ok false
    | Except.error PyError.otherError => Except.error PyError.otherError
  if lockHeld then
    (caught,
      [LockEvent.lowerArtifact (lower_artifact l a), LockEvent.useDummy] ++
        r.2)
  else
    (caught,
      [LockEvent.lowerArtifact (lower_artifact l a), LockEvent.acquire] ++
        r.2 ++ [LockEvent.release])

/-- Run a setter script from inside the with-block: a nested set goes
back through artifact_set_event_handler with the lock held, and an
exception escaping a nested handler aborts the remainder of the
script. -/
def runSetterBody (l : ArtifactLifter) :
    SetterBody → Except PyError Bool × List LockEvent
  | SetterBody.done (SetterOutcome.ret b) => (Except.ok b, [])
  | SetterBody.done SetterOutcome.raiseValueError =>
    (Except.error PyError.valueError, [])
  | SetterBody.done SetterOutcome.raiseOther =>
    (Except.error PyError.otherError, [])
  | SetterBody.nest a inner rest =>
    let rInner := artifact_set_event_handler l true a inner
    match rInner.1 with
    | Except.error e => (Except.error e, rInner.2)
    | Except.ok _ =>
      let rRest := runSetterBody l rest
      (rRest.1, rInner.2 ++ rRest.2)

end

lemma runSetterBody_no_lock_events (l : ArtifactLifter) (b : SetterBody) :
    (runSetterBody l b).2.count LockEvent.acquire = 0 ∧
      (runSetterBody l b).2.count LockEvent.release = 0 := by
  induction b with
  | done o => cases o <;> simp [runSetterBody]
  | nest a inner rest ihInner ihRest =>
    have hInner :
        (artifact_set_event_handler l true a inner).2.count
            LockEvent.acquire = 0 ∧
          (artifact_set_event_handler l true a inner).2.count
            LockEvent.release = 0 := by
      simp [artifact_set_event_handler, List.count_cons, ihInner.1,
        ihInner.2]
    rcases h :
        (artifact_set_event_handler l true a inner).1 with e | v <;>
      simp [runSetterBody, h, List.count_append, hInner.1, hInner.2,
        ihRest.1, ihRest.2]

lemma handler_events_lock_free (l : ArtifactLifter) (a : Artifact)
    (b : SetterBody) :
    (artifact_set_event_handler l false a b).2 =
      [LockEvent.lowerArtifact (lower_artifact l a), LockEvent.acquire] ++
        (runSetterBody l b).2 ++ [LockEvent.release] := by
  simp [artifact_set_event_handler]

lemma handler_events_lock_held (l : ArtifactLifter) (a : Artifact)
    (b : SetterBody) :
    (artifact_set_event_handler l true a b).2 =
      [LockEvent.lowerArtifact (lower_artifact l a), LockEvent.useDummy] ++
        (runSetterBody l b).2 := by
  simp [artifact_set_event_handler]

/-- C1: every handler call lowers the artifact first (the head of the
event trace); a call entered with artifact_set_lock free acquires and
releases the real lock exactly once, the release coming last regardless
of how the setter script finishes; a call entered with the lock already
held substitutes the no-op dummy guard and performs no acquisition and no
release at all, so a nested synchronous set never deadlocks and a
non-nested call chain performs exactly one acquisition/release pair. -/
theorem C1_reentrancy_guard (l : ArtifactLifter) (a : Artifact)
    (b : SetterBody) :
    ((artifact_set_event_handler l false a b).2.count LockEvent.acquire =
      1) ∧
    ((artifact_set_event_handler l false a b).2.count LockEvent.release =
      1) ∧
    ((artifact_set_event_handler l false a b).2.getLast? =
      some LockEvent.release) ∧
    ((artifact_set_event_handler l true a b).2.count LockEvent.acquire =
      0) ∧
    ((artifact_set_event_handler l true a b).2.count LockEvent.release =
      0) ∧
    (LockEvent.useDummy ∈ (artifact_set_event_handler l true a b).2) ∧
    (∀ lockHeld,
      (artifact_set_event_handler l lockHeld a b).2.head? =
        some (LockEvent.lowerArtifact (lower_artifact l a))) := by
  obtain ⟨hacq, hrel⟩ := runSetterBody_no_lock_events l b
  have hF := handler_events_lock_free l a b
  have hH := handler_events_lock_held l a b
  refine ⟨?_, ?_, ?_, ?_, ?_, ?_, ?_⟩
  · rw [hF]; simp [List.count_append, List.count_cons, hacq]
  · rw [hF]; simp [List.count_append, List.count_cons, hrel]
  · rw [hF, List.getLast?_concat]
  · rw [hH]; simp [List.count_cons, hacq]
  · rw [hH]; simp [List.count_cons, hrel]
  · rw [hH]; simp
  · intro lockHeld
    cases lockHeld
    · rw [hF]; rfl
    · rw [hH]; rfl

/-- C4: a setter invocation that raises ValueError inside
artifact_set_event_handler is caught and the handler returns False,
treated as no change, instead of propagating the error. -/
theorem C4_value_error_caught (l : ArtifactLifter) (lockHeld : Bool)
    (a : Artifact) (b : SetterBody)
    (h : (runSetterBody l b).1 = Except.error PyError.valueError) :
    (artifact_set_event_handler l lockHeld a b).1 = Except.ok false := by
  cases lockHeld <;> simp [artifact_set_event_handler, h]

/-- C4 witness: the catch evaluated on the setter script that raises
ValueError immediately. -/
theorem C4_value_error_caught_witness :
    (artifact_set_event_handler ⟨0⟩ false Artifact.abstractArtifact
        (SetterBody.done SetterOutcome.raiseValueError)).1 =
      Except.ok false :=
  C4_value_error_caught ⟨0⟩ false Artifact.abstractArtifact
    (SetterBody.done SetterOutcome.raiseValueError)
    (by simp [runSetterBody])

/-- The concrete interface classes that discover_interface can
construct. -/
inductive DecName
  | ida
  | binja
  | angr
  | ghidra
deriving DecidableEq, Repr

/-- Modelled from the spec: the decompiler name constants imported from
yodalib.decompilers are not among the provided sources; the backends
named there are IDA, Binary Ninja, angr and Ghidra. -/
def IDA_DECOMPILER : String := "ida"

/-- Modelled from the spec: the Binary Ninja backend name constant. -/
def BINJA_DECOMPILER : String := "binja"

/-- Modelled from the spec: the angr backend name constant. -/
def ANGR_DECOMPILER : String := "angr"

/-- Modelled from the spec: the Ghidra backend name constant. -/
def GHIDRA_DECOMPILER : String := "ghidra"

/-- Modelled from the spec: the list of supported decompiler names
imported from yodalib.decompilers. -/
def YODALIB_SUPPORTED_DECOMPILERS : List String :=
  [IDA_DECOMPILER, BINJA_DECOMPILER, ANGR_DECOMPILER, GHIDRA_DECOMPILER]

/-- The runtime environment markers probed by discover_interface:
whether idaapi imports, whether binaryninja imports, and whether angr
plus angrmanagement import with a workspace global reachable in the call
frames. -/
structure Env where
  has_ida : Bool
  has_binja : Bool
  has_angr : Bool
deriving DecidableEq, Repr

/-- DecompilerInterface.discover_interface (decompiler_interface.py
lines 470-526): an unsupported forced name raises ValueError; otherwise
the branch chain takes IDA when idaapi is importable or IDA is forced,
then Binary Ninja, then angr, then Ghidra (assumed when no other marker
is present), and raises if no branch matches. -/
def discover_interface (env : Env) (force_decompiler : Option String) :
    Except String DecName :=
  if (match force_decompiler with
      | some f => decide (f ∉ YODALIB_SUPPORTED_DECOMPILERS)
      | none => false) then
    Except.error "Unsupported decompiler"
  else
    let is_ghidra := !(env.has_ida || env.has_binja || env.has_angr)
    if env.has_ida || force_decompiler = some IDA_DECOMPILER then
      Except.ok DecName.ida
    else if env.has_binja || force_decompiler = some BINJA_DECOMPILER then
      Except.ok DecName.binja
    else if env.has_angr || force_decompiler = some ANGR_DECOMPILER then
      Except.ok DecName.angr
    else if is_ghidra || force_decompiler = some GHIDRA_DECOMPILER then
      Except.ok DecName.ghidra
    else
      Except.error "Please use YODALib with our supported decompiler set!"

/-- C5 evaluation at the failing input: forcing the Binary Ninja backend
in a process whose environment carries the IDA marker constructs
IDAInterface, not the forced BinjaInterface - detection beats the
explicit override, contradicting the documented override semantics; the
override is honored only when no higher-priority marker is detected. -/
theorem C5_forced_override_loses_to_detection :
    discover_interface ⟨true, false, false⟩ (some BINJA_DECOMPILER) =
        Except.ok DecName.ida ∧
      discover_interface ⟨false, false, false⟩ (some BINJA_DECOMPILER) =
        Except.ok DecName.binja := by
  constructor <;> rfl

/-- The parsed-type record returned by the external type-parsing
service: the flag saying the type is not a known primitive, and the name
of the base type (CType.base_type.type). -/
structure CType where
  is_unknown : Bool
  base_type : String
deriving DecidableEq, Repr

/-- DecompilerInterface.type_is_user_defined (decompiler_interface.py
lines 443-457): an empty type string yields None; an unparsable string
yields None; a parsed type that is a known primitive yields None; and
otherwise the base type name is returned exactly when it is among the
registered struct names of the given state. The external type-parsing
service is passed as the function parse_type, and struct_names stands
for state._structs.keys(). -/
def type_is_user_defined (parse_type : String → Option CType)
    (struct_names : List String) (type_str : String) : Option String :=
  if type_str = "" then
    none
  else
    match parse_type type_str with
    | none => none
    | some t =>
      if t.is_unknown = false then none
      else if t.base_type ∈ struct_names then some t.base_type else none

/-- Modelled from the spec: a concrete instance of the opaque
type-parsing service, sufficient for the examples of the specification.
It parses "struct Foo" as the non-primitive base type Foo, parses "int"
as a known primitive, and fails on everything else, so in particular on
"not a valid type <<<". An empty string is not a valid C type, so it
does not parse. -/
def modelParseType : String → Option CType := fun s =>
  if s = "struct Foo" then some ⟨true, "Foo"⟩
  else if s = "int" then some ⟨false, "int"⟩
  else none

/-- C6: provided the external service rejects the empty string,
type_is_user_defined returns a name exactly when parsing succeeds with a
type flagged as not a known primitive whose base name is among the
registered struct names, and returns None in every other case - it is
total, so malformed input never raises; on the concrete model service,
"int" and "not a valid type <<<" yield None, and "struct Foo" yields Foo
only when Foo is registered. -/
theorem C6_type_is_user_defined :
    (∀ (parse_type : String → Option CType)
        (struct_names : List String) (type_str : String) (n : String),
      parse_type "" = none →
      (type_is_user_defined parse_type struct_names type_str = some n ↔
        ∃ t, parse_type type_str = some t ∧ t.is_unknown = true ∧
          t.base_type = n ∧ n ∈ struct_names)) ∧
    type_is_user_defined modelParseType ["Foo"] "int" = none ∧
    type_is_user_defined modelParseType ["Foo"] "not a valid type <<<" =
      none ∧
    type_is_user_defined modelParseType ["Foo"] "struct Foo" =
      some "Foo" ∧
    type_is_user_defined modelParseType ["Bar"] "struct Foo" = none := by
  refine ⟨?_, by decide, by decide, by decide, by decide⟩
  intro parse_type struct_names type_str n hempty
  constructor
  · intro h
    by_cases hts : type_str = ""
    · simp [type_is_user_defined, hts] at h
    · rcases hp : parse_type type_str with _ | t
      · simp [type_is_user_defined, hts, hp] at h
      · by_cases hu : t.is_unknown = false
        · simp [type_is_user_defined, hts, hp, hu] at h
        · by_cases hm : t.base_type ∈ struct_names
          · have hbn : t.base_type = n := by
              simpa [type_is_user_defined, hts, hp, hu, hm] using h
            exact ⟨t, rfl, by simpa using hu, hbn, hbn ▸ hm⟩
          · simp [type_is_user_defined, hts, hp, hu, hm] at h
  · rintro ⟨t, hp, hu, hb, hm⟩
    have hts : type_str ≠ "" := by
      intro h0
      rw [h0, hempty] at hp
      exact Option.noConfusion hp
    simp [type_is_user_defined, hts, hp, hu, hb, hm]

/-- C6 witness: the characterization applied at the concrete model
service, giving the positive struct Foo example. -/
theorem C6_type_is_user_defined_witness :
    type_is_user_defined modelParseType ["Foo"] "struct Foo" =
      some "Foo" :=
  (C6_type_is_user_defined.1 modelParseType ["Foo"] "struct Foo" "Foo"
    rfl).mpr ⟨⟨true, "Foo"⟩, rfl, rfl, rfl, by decide⟩

end Yodalib
